import Mathlib

/-!
Verification development for the NEST clinical-trial dashboard metrics engine
(`js/data/dataAdapter.js`, two phases of the adapter plus `app.js` and
`mockData.js`).

Modelling conventions (shallow embedding of the JavaScript source):
* A JavaScript number that may be `undefined` or `NaN` is modelled as
  `Option ℚ`, with `none` standing for "not a finite defined number".
  Arithmetic on `none` propagates `none`, exactly as `undefined` poisons
  arithmetic to `NaN` in JavaScript; comparisons against `none` are `false`,
  as every comparison involving `NaN`/`undefined` is false in JavaScript.
* `Math.round` is round-half-up (`⌊q + 1/2⌋`), which is exactly JavaScript's
  `Math.round` on finite values.
* JavaScript objects whose field set matters to a claim (trend points) are
  modelled as association lists from field names to values; all other objects
  are Lean structures with `Option` fields (an absent field is `none`).
* `Math.random()` draws are modelled by an explicit stream `ℕ → ℚ` of values
  (a run of the program corresponds to one stream, with draws in `[0,1)`);
  `new Date()` is modelled by measuring dates in whole days relative to the
  generation instant, so a generated date `-(7*i)` means "i weeks ago".
-/

namespace NestDashboard

/-- JavaScript `Math.round` on finite values: round half toward `+∞`,
i.e. `⌊q + 1/2⌋` (stated via the executable `Rat.floor`). -/
def jsRound (q : ℚ) : ℤ := (q + 1/2).floor

/-- JavaScript `Math.floor` on finite values (stated via the executable
`Rat.floor`). -/
def jsFloor (q : ℚ) : ℤ := q.floor

/-- `Rat.floor` agrees with the floor of the `FloorRing` structure. -/
theorem ratFloor_eq_intFloor (q : ℚ) : q.floor = ⌊q⌋ := by
  rw [Rat.floor_def', Rat.floor_def]

/-- `jsRound` is `⌊q + 1/2⌋`. -/
theorem jsRound_eq (q : ℚ) : jsRound q = ⌊q + 1/2⌋ := ratFloor_eq_intFloor _

/-- `jsFloor` is `⌊q⌋`. -/
theorem jsFloor_eq (q : ℚ) : jsFloor q = ⌊q⌋ := ratFloor_eq_intFloor _

/-- A JavaScript numeric value: `none` models `undefined`/`NaN`. -/
abbrev JsNum := Option ℚ

namespace JsNum

/-- JS addition: `undefined`/`NaN` operands poison the result. -/
def add : JsNum → JsNum → JsNum
  | some a, some b => some (a + b)
  | _, _ => none

/-- JS subtraction with `NaN` propagation. -/
def sub : JsNum → JsNum → JsNum
  | some a, some b => some (a - b)
  | _, _ => none

/-- JS multiplication with `NaN` propagation. -/
def mul : JsNum → JsNum → JsNum
  | some a, some b => some (a * b)
  | _, _ => none

/-- JS division with `NaN` propagation.  Division by zero yields `none`;
in the adapter every division is guarded by a positivity test or has a
non-zero literal divisor, so the JS `Infinity` results never arise on the
paths modelled here. -/
def div : JsNum → JsNum → JsNum
  | some a, some b => if b = 0 then none else some (a / b)
  | _, _ => none

/-- JS `Math.round` lifted to possibly-undefined values (`Math.round(NaN)`
is `NaN`). -/
def round : JsNum → Option ℤ
  | some a => some (jsRound a)
  | none => none

/-- JS `<` comparison: false whenever an operand is `undefined`/`NaN`. -/
def lt : JsNum → JsNum → Bool
  | some a, some b => decide (a < b)
  | _, _ => false

/-- JS `>` comparison: false whenever an operand is `undefined`/`NaN`. -/
def gt : JsNum → JsNum → Bool
  | some a, some b => decide (b < a)
  | _, _ => false

/-- JS `>=` comparison: false whenever an operand is `undefined`/`NaN`. -/
def ge : JsNum → JsNum → Bool
  | some a, some b => decide (b ≤ a)
  | _, _ => false

/-- JS strict equality `x === c` against a number literal. -/
def eq : JsNum → ℚ → Bool
  | some a, c => decide (a = c)
  | none, _ => false

/-- JS `x || d` for a numeric `x` and default `d`: `undefined`, `NaN` and
`0` are falsy and select the default. -/
def orD : JsNum → ℚ → ℚ
  | some a, d => if a = 0 then d else a
  | none, d => d

/-- JS `Math.max` lifted (`Math.max(a, NaN)` is `NaN`). -/
def max' : JsNum → JsNum → JsNum
  | some a, some b => some (max a b)
  | _, _ => none

/-- JS `Math.min` lifted (`Math.min(a, NaN)` is `NaN`). -/
def min' : JsNum → JsNum → JsNum
  | some a, some b => some (min a b)
  | _, _ => none

end JsNum

/-! ## The raw snapshot (input contract of `getRealDashboardData`)

Every field is optional, mirroring the duck-typed JSON input. -/

/-- `queries.aging` buckets. -/
structure QueryAging where
  d0to7 : JsNum := none
  d8to14 : JsNum := none
  d15to30 : JsNum := none
  dOver30 : JsNum := none
deriving Repr, DecidableEq

/-- `raw.queries`. -/
structure QueriesData where
  total : JsNum := none
  «open» : JsNum := none
  closed : JsNum := none
  resolutionRate : JsNum := none
  aging : Option QueryAging := none
deriving Repr, DecidableEq

/-- `raw.saes`. -/
structure SaesData where
  total : JsNum := none
  «open» : JsNum := none
  patientsWithOpenSAE : JsNum := none
  sitesWithOpenSAE : JsNum := none
deriving Repr, DecidableEq

/-- `raw.visits`. -/
structure VisitsData where
  totalMissing : JsNum := none
  overdue30Days : JsNum := none
deriving Repr, DecidableEq

/-- `raw.lab`. -/
structure LabData where
  totalIssues : JsNum := none
deriving Repr, DecidableEq

/-- One coding dictionary (`coding.meddra` / `coding.whodd`). -/
structure CodingPair where
  total : JsNum := none
  uncoded : JsNum := none
deriving Repr, DecidableEq

/-- `raw.coding`. -/
structure CodingData where
  meddra : Option CodingPair := none
  whodd : Option CodingPair := none
  totalUncoded : JsNum := none
deriving Repr, DecidableEq

/-- `raw.sdv`. -/
structure SdvData where
  total : JsNum := none
  verified : JsNum := none
  pending : JsNum := none
  verificationRate : JsNum := none
deriving Repr, DecidableEq

/-- `raw.signatures`. -/
structure SignaturesData where
  pending : JsNum := none
  overdue : JsNum := none
deriving Repr, DecidableEq

/-- A site leaf of the `regions` tree. -/
structure SiteData where
  patients : JsNum := none
  total_queries : JsNum := none
  open_queries : JsNum := none
deriving Repr, DecidableEq

/-- A country node of the `regions` tree; `sites` is an insertion-ordered
object, modelled as an association list. -/
structure CountryData where
  total_sites : JsNum := none
  total_queries : JsNum := none
  open_queries : JsNum := none
  sites : List (String × SiteData) := []
deriving Repr, DecidableEq

/-- A region node of the `regions` tree. -/
structure RegionData where
  total_countries : JsNum := none
  countries : List (String × CountryData) := []
deriving Repr, DecidableEq

/-- A generated JSON value appearing in a trend point. -/
inductive JVal where
  | num : ℚ → JVal
  | str : String → JVal
  | bool : Bool → JVal
deriving Repr, DecidableEq

/-- A JavaScript object as produced for a trend point: field names with
their values, in insertion order. -/
abbrev JPoint := List (String × JVal)

/-- The raw snapshot handed to `getRealDashboardData`. -/
structure RawSnapshot where
  queries : Option QueriesData := none
  saes : Option SaesData := none
  visits : Option VisitsData := none
  lab : Option LabData := none
  coding : Option CodingData := none
  sdv : Option SdvData := none
  signatures : Option SignaturesData := none
  regions : List (String × RegionData) := []
  dqiTrend : Option (List JPoint) := none
deriving Repr, DecidableEq

/-- Read a field of an optional sub-object (`(raw.x || {}).f` accesses). -/
def field {α : Type} (o : Option α) (f : α → JsNum) : JsNum :=
  match o with
  | some v => f v
  | none => none

/-- The three-state readiness verdict. -/
inductive Readiness where
  | ready
  | atRisk
  | notReady
deriving Repr, DecidableEq

/-- Per-entity status tier of sites and countries. -/
inductive EntityStatus where
  | healthy
  | atRisk
  | critical
deriving Repr, DecidableEq

/-- `getCountryName` of the complete (phase-2) adapter: fixed code→name
table, falling back to the code itself. -/
def getCountryName (code : String) : String :=
  let names : List (String × String) :=
    [("USA", "United States"), ("CAN", "Canada"), ("MEX", "Mexico"), ("BRA", "Brazil"),
     ("ARG", "Argentina"), ("COL", "Colombia"), ("CHL", "Chile"), ("PER", "Peru"),
     ("CHN", "China"), ("JPN", "Japan"), ("KOR", "South Korea"), ("IND", "India"),
     ("TWN", "Taiwan"), ("THA", "Thailand"), ("PHL", "Philippines"), ("MYS", "Malaysia"),
     ("DEU", "Germany"), ("FRA", "France"), ("GBR", "United Kingdom"), ("ESP", "Spain"),
     ("ITA", "Italy"), ("POL", "Poland"), ("NLD", "Netherlands"), ("AUT", "Austria"),
     ("BEL", "Belgium"), ("CZE", "Czech Republic"), ("HUN", "Hungary"), ("RUS", "Russia"),
     ("UKR", "Ukraine"), ("TUR", "Turkey"), ("ISR", "Israel"), ("ZAF", "South Africa"),
     ("AUS", "Australia"), ("NZL", "New Zealand"), ("SGP", "Singapore"),
     ("EGY", "Egypt"), ("SAU", "Saudi Arabia"), ("ARE", "UAE"), ("OMN", "Oman")]
  match names.lookup code with
  | some n => n
  | none => code

/-- A country entity produced by `transformRegionsData`. -/
structure CountryEntity where
  id : String
  name : String
  sites : ℚ
  patients : ℚ
  dqi : ℤ
  cleanPercent : ℤ
  openSAE : ℤ
  status : EntityStatus
deriving Repr, DecidableEq

/-- A region entity produced by `transformRegionsData`. -/
structure RegionEntity where
  id : String
  name : String
  countries : List CountryEntity
deriving Repr, DecidableEq

/-- A site entity produced by `calculateSiteRankings`. -/
structure SiteEntity where
  id : String
  name : String
  country : String
  dqi : ℤ
  cleanPercent : ℤ
  patients : ℚ
  openQueries : ℚ
  totalQueries : ℚ
  status : EntityStatus
deriving Repr, DecidableEq

/-- The per-node proxy resolution rate:
`totalQueries > 0 ? (total - open) / total * 100 : 100` after the `|| 0`
defaults have been applied. -/
def nodeResolutionRate (totalQueries openQueries : ℚ) : ℚ :=
  if 0 < totalQueries then (totalQueries - openQueries) / totalQueries * 100 else 100

/-- The per-node proxy score: `Math.round(resolutionRate * 0.8 + 20)`. -/
def nodeDqi (resolutionRate : ℚ) : ℤ := jsRound (resolutionRate * (8/10) + 20)

/-- The per-node clean percentage: `Math.round(resolutionRate * 0.85)`. -/
def nodeCleanPercent (resolutionRate : ℚ) : ℤ := jsRound (resolutionRate * (85/100))

/-- The per-node status ladder:
`dqi >= 85 ? 'healthy' : dqi >= 70 ? 'at-risk' : 'critical'`. -/
def nodeStatus (dqi : ℤ) : EntityStatus :=
  if 85 ≤ dqi then .healthy else if 70 ≤ dqi then .atRisk else .critical

/-- One country of `transformRegionsData`'s output. -/
def makeCountryEntity (countryCode : String) (countryData : CountryData) : CountryEntity :=
  let totalQueries := JsNum.orD countryData.total_queries 0
  let openQueries := JsNum.orD countryData.open_queries 0
  let resolutionRate := nodeResolutionRate totalQueries openQueries
  let dqi := nodeDqi resolutionRate
  { id := countryCode.toLower
    name := getCountryName countryCode
    sites := JsNum.orD countryData.total_sites (countryData.sites.length)
    patients := (countryData.sites.map (fun s => JsNum.orD s.2.patients 0)).sum
    dqi := dqi
    cleanPercent := nodeCleanPercent resolutionRate
    openSAE := jsFloor (openQueries / 10)
    status := nodeStatus dqi }

/-- `transformRegionsData` (identical in both adapter phases): region →
country roll-up entities. -/
def transformRegionsData (rawRegions : List (String × RegionData)) : List RegionEntity :=
  rawRegions.map (fun r =>
    { id := r.1.toLower
      name := r.1
      countries := r.2.countries.map (fun c => makeCountryEntity c.1 c.2) })

/-- One site of `calculateSiteRankings`'s flat list. -/
def makeSiteEntity (countryCode siteId : String) (siteData : SiteData) : SiteEntity :=
  let totalQueries := JsNum.orD siteData.total_queries 0
  let openQueries := JsNum.orD siteData.open_queries 0
  let resolutionRate := nodeResolutionRate totalQueries openQueries
  let dqi := nodeDqi resolutionRate
  { id := siteId
    name := getCountryName countryCode ++ " - " ++ siteId
    country := countryCode
    dqi := dqi
    cleanPercent := nodeCleanPercent resolutionRate
    patients := JsNum.orD siteData.patients 0
    openQueries := openQueries
    totalQueries := totalQueries
    status := nodeStatus dqi }

/-- The flat list of all site entities, in region → country → site
traversal order. -/
def allSitesOf (rawRegions : List (String × RegionData)) : List SiteEntity :=
  rawRegions.flatMap (fun r =>
    r.2.countries.flatMap (fun c =>
      c.2.sites.map (fun s => makeSiteEntity c.1 s.1 s.2)))

/-- Stable insertion step for `Array.prototype.sort((a, b) => b.dqi - a.dqi)`:
an element moves past exactly the strictly higher-scored prefix, so equal
scores keep their original order. -/
def insertByDqi (x : SiteEntity) : List SiteEntity → List SiteEntity
  | [] => [x]
  | y :: ys => if y.dqi ≤ x.dqi then x :: y :: ys else y :: insertByDqi x ys

/-- `allSites.sort((a, b) => b.dqi - a.dqi)`: stable sort, descending by
score. -/
def sortByDqiDesc : List SiteEntity → List SiteEntity
  | [] => []
  | x :: xs => insertByDqi x (sortByDqiDesc xs)

/-- `calculateSiteRankings` (identical in both adapter phases):
`topSites = sorted.slice(0, 5)`, `bottomSites = sorted.slice(-5).reverse()`. -/
def calculateSiteRankings (rawRegions : List (String × RegionData)) :
    List SiteEntity × List SiteEntity :=
  let sorted := sortByDqiDesc (allSitesOf rawRegions)
  (sorted.take 5, (sorted.drop (sorted.length - 5)).reverse)

/-! ## Phase-2 adapter (first copy of `dataAdapter.js`): composite DQI and
readiness -/

namespace V2

/-- `const queryResolutionScore = queries.resolutionRate || 0`. -/
def queryResolutionScore (raw : RawSnapshot) : ℚ :=
  JsNum.orD (field raw.queries QueriesData.resolutionRate) 0

/-- `saes.total > 0 ? Math.round((saes.total - saes.open) / saes.total * 100) : 100`. -/
def saeResolutionScore (raw : RawSnapshot) : JsNum :=
  let t := field raw.saes SaesData.total
  let o := field raw.saes SaesData.«open»
  if JsNum.gt t (some 0) then
    (JsNum.round (JsNum.mul (JsNum.div (JsNum.sub t o) t) (some 100))).map (fun z => (z : ℚ))
  else some 100

/-- `const sdvScore = sdv.verificationRate || 0`. -/
def sdvScore (raw : RawSnapshot) : ℚ :=
  JsNum.orD (field raw.sdv SdvData.verificationRate) 0

/-- `Math.max(0, 100 - Math.min(100, visits.totalMissing / 10))`. -/
def visitScore (raw : RawSnapshot) : JsNum :=
  JsNum.max' (some 0)
    (JsNum.sub (some 100)
      (JsNum.min' (some 100) (JsNum.div (field raw.visits VisitsData.totalMissing) (some 10))))

/-- `Math.max(0, 100 - Math.min(100, lab.totalIssues / 200))`. -/
def labScore (raw : RawSnapshot) : JsNum :=
  JsNum.max' (some 0)
    (JsNum.sub (some 100)
      (JsNum.min' (some 100) (JsNum.div (field raw.lab LabData.totalIssues) (some 200))))

/-- `coding.meddra?.total > 0 ? (total - uncoded) / total * 100 : 100`. -/
def codingScore (raw : RawSnapshot) : JsNum :=
  let meddra := raw.coding.bind CodingData.meddra
  let t := field meddra CodingPair.total
  let u := field meddra CodingPair.uncoded
  if JsNum.gt t (some 0) then JsNum.mul (JsNum.div (JsNum.sub t u) t) (some 100)
  else some 100

/-- `Math.max(0, 100 - Math.min(100, signatures.overdue / 100))`. -/
def signatureScore (raw : RawSnapshot) : JsNum :=
  JsNum.max' (some 0)
    (JsNum.sub (some 100)
      (JsNum.min' (some 100) (JsNum.div (field raw.signatures SignaturesData.overdue) (some 100))))

/-- The phase-2 weighted composite DQI (`dataAdapter.js` first copy,
weights 30/25/10/10/10/10/5). -/
def dqi (raw : RawSnapshot) : Option ℤ :=
  JsNum.round
    (JsNum.add (JsNum.mul (saeResolutionScore raw) (some (30/100)))
      (JsNum.add (some (queryResolutionScore raw * (25/100)))
        (JsNum.add (JsNum.mul (visitScore raw) (some (10/100)))
          (JsNum.add (JsNum.mul (labScore raw) (some (10/100)))
            (JsNum.add (JsNum.mul (codingScore raw) (some (10/100)))
              (JsNum.add (some (sdvScore raw * (10/100)))
                (JsNum.mul (signatureScore raw) (some (5/100)))))))))

/-- The phase-2 readiness ladder (ceiling 100 open SAEs, floor 85 %):
`saes.open === 0 && queryResolutionScore >= 98` → ready, else
`saes.open < 100 && queryResolutionScore >= 85` → at-risk, else not-ready. -/
def readinessStatus (raw : RawSnapshot) : Readiness :=
  let saesOpen := field raw.saes SaesData.«open»
  let qrs := queryResolutionScore raw
  if JsNum.eq saesOpen 0 && decide (98 ≤ qrs) then .ready
  else if JsNum.lt saesOpen (some 100) && decide (85 ≤ qrs) then .atRisk
  else .notReady

/-- `Math.round((saes.patientsWithOpenSAE || 0) * 3.5)` and the derived
clean-patient counters. -/
def totalUniquePatients (raw : RawSnapshot) : ℤ :=
  jsRound (JsNum.orD (field raw.saes SaesData.patientsWithOpenSAE) 0 * (35/10))

/-- `Math.max(0, totalUniquePatients - (saes.patientsWithOpenSAE || 0))`. -/
def cleanPatients (raw : RawSnapshot) : ℚ :=
  max 0 ((totalUniquePatients raw : ℚ) - JsNum.orD (field raw.saes SaesData.patientsWithOpenSAE) 0)

/-- `totalUniquePatients > 0 ? Math.round(cleanPatients / totalUniquePatients * 100) : 0`. -/
def cleanPatientPercent (raw : RawSnapshot) : ℚ :=
  if 0 < totalUniquePatients raw then
    (jsRound (cleanPatients raw / (totalUniquePatients raw : ℚ) * 100) : ℚ)
  else 0

end V2

/-! ## Trend generators -/

/-- Turn the possibly-`NaN` result of a rounding into the JSON value the
adapter serializes. -/
def jnumOf : Option ℤ → JVal
  | some v => .num (v : ℚ)
  | none => .num 0

/-- `generateDQITrend(currentDqi, weeks)` of the phase-2 adapter.  The loop
runs `i = weeks-1 … 0`; the `j`-th emitted point uses `i = weeks-1-j`, the
date `now - 7i` days, and one `Math.random()` draw:
`Math.max(20, currentDqi - i*3 + (Math.random() - 0.5) * 5)`, rounded.
Each point is the object literal `{ date: …, value: … }`. -/
def generateDQITrend (currentDqi : JsNum) (weeks : ℕ) (rand : ℕ → ℚ) : List JPoint :=
  (List.range weeks).map (fun j =>
    let i := weeks - 1 - j
    let historicalDqi :=
      JsNum.max' (some 20)
        (JsNum.add (JsNum.sub currentDqi (some (i * 3))) (some ((rand j - 1/2) * 5)))
    [("date", .num (-(7 * (i : ℚ)))), ("value", jnumOf (JsNum.round historicalDqi))])

/-- `generateTrendData(currentValue, weeks, decreasing)` (identical in both
adapter phases): ramp toward the current value plus a bounded random
variance `(Math.random() - 0.5) * 0.1 * currentValue`. -/
def generateTrendData (currentValue : ℚ) (weeks : ℕ) (decreasing : Bool)
    (rand : ℕ → ℚ) : List JPoint :=
  (List.range weeks).map (fun j =>
    let i := weeks - 1 - j
    let variance := (rand j - 1/2) * (1/10) * currentValue
    let trend :=
      if decreasing then currentValue * (1 + ((i : ℚ) / weeks) * (3/10))
      else currentValue * (1 - ((i : ℚ) / weeks) * (15/100))
    [("date", .num (-(7 * (i : ℚ)))), ("value", .num (jsRound (trend + variance)))])

/-- The phase-2 dqi-trend selection (`dataAdapter.js` lines 209–213): use
`raw.dqiTrend` when it is non-empty and not the all-50 placeholder,
otherwise synthesize with `generateDQITrend(dqi, 7)`. -/
def selectDqiTrend (provided : Option (List JPoint)) (dqi : JsNum) (rand : ℕ → ℚ) :
    List JPoint :=
  let t := provided.getD []
  if t.length = 0 || t.all (fun p => p.lookup "value" = some (.num 50)) then
    generateDQITrend dqi 7 rand
  else t

/-! ## Phase-1 adapter (second copy of `dataAdapter.js`): composite DQI and
readiness -/

namespace V1

/-- `const queryResolutionScore = (queries.resolutionRate || 0) / 100`. -/
def queryResolutionScore (raw : RawSnapshot) : ℚ :=
  JsNum.orD (field raw.queries QueriesData.resolutionRate) 0 / 100

/-- `saes.total > 0 ? (saes.total - saes.open) / saes.total : 1`. -/
def saeResolutionScore (raw : RawSnapshot) : JsNum :=
  let t := field raw.saes SaesData.total
  let o := field raw.saes SaesData.«open»
  if JsNum.gt t (some 0) then JsNum.div (JsNum.sub t o) t else some 1

/-- The phase-1 weighted composite DQI (weights 30/25 plus fixed estimates
`0.75 * 0.20 + 0.85 * 0.15 + 0.90 * 0.10` for the categories that were not
extracted in phase 1). -/
def dqi (raw : RawSnapshot) : Option ℤ :=
  JsNum.round
    (JsNum.mul
      (JsNum.add (JsNum.mul (saeResolutionScore raw) (some (30/100)))
        (some (queryResolutionScore raw * (25/100) +
          (75/100) * (20/100) + (85/100) * (15/100) + (90/100) * (10/100))))
      (some 100))

/-- The phase-1 readiness ladder (ceiling 10 open SAEs, floor 90 %), reading
`queries.resolutionRate` directly (comparisons with an absent rate are
false). -/
def readinessStatus (raw : RawSnapshot) : Readiness :=
  let saesOpen := field raw.saes SaesData.«open»
  let rate := field raw.queries QueriesData.resolutionRate
  if JsNum.eq saesOpen 0 && JsNum.ge rate (some 98) then .ready
  else if JsNum.lt saesOpen (some 10) && JsNum.ge rate (some 90) then .atRisk
  else .notReady

/-- `raw.saes?.patientsWithOpenSAE * 3 || 5000` (`estimateTotalPatients`).
An absent factor makes the product `NaN`, which is falsy, so the default
5000 applies. -/
def estimateTotalPatients (raw : RawSnapshot) : ℚ :=
  JsNum.orD (JsNum.mul (field raw.saes SaesData.patientsWithOpenSAE) (some 3)) 5000

end V1

/-! ## Phase-1 insight and recommendation generators

`x.toLocaleString()` renders a number with thousands separators; on a
present number it never throws, while on `undefined` it raises
`TypeError: Cannot read properties of undefined`.  The generators are
therefore embedded in `Except String`, keeping exactly the values that are
interpolated into each fixed template (the pure text around them cannot
fail and is elided).  A plain `${x}` interpolation of a possibly-undefined
value never throws and is kept as a `JsNum`. -/

/-- `x.toLocaleString()`: the only failing operation of the generators. -/
def locale : JsNum → Except String ℚ
  | some v => .ok v
  | none => .error "TypeError: Cannot read properties of undefined (reading toLocaleString)"

/-- One AI insight: the fixed template's identity plus the values
interpolated into it. -/
structure Insight where
  id : ℕ
  type : String
  icon : String
  title : String
  localeParams : List ℚ
  plainParams : List JsNum
  priority : String
  source : String
deriving Repr, DecidableEq

/-- One agent recommendation: role, priority, deadline offset in days, and
the values interpolated into the fixed rule templates. -/
structure Recommendation where
  id : ℕ
  role : String
  priority : String
  action : String
  localeParams : List ℚ
  plainParams : List JsNum
  deadlineDays : ℕ
  source : String
deriving Repr, DecidableEq

namespace V1

/-- `generateAIInsights(raw, dqi, sitesAtRisk, saes, queries)` of the
phase-1 adapter: insight 1 is unconditional and calls `.toLocaleString()`
on `saes.open`, `saes.sitesWithOpenSAE` and `saes.patientsWithOpenSAE`
without any default. -/
def generateAIInsights (raw : RawSnapshot) (dqi : Option ℤ) (sitesAtRisk : ℚ)
    (saes : SaesData) (queries : QueriesData) : Except String (List Insight) := do
  let _ := raw
  let _ := sitesAtRisk
  let o ← locale saes.«open»
  let s ← locale saes.sitesWithOpenSAE
  let p ← locale saes.patientsWithOpenSAE
  let insight1 : Insight :=
    { id := 1
      type := if JsNum.gt saes.«open» (some 0) then "blocker" else "trend"
      icon := if JsNum.gt saes.«open» (some 0) then "🚫" else "📈"
      title := "Submission Readiness Assessment"
      localeParams := [o, s, p]
      plainParams := []
      priority := if JsNum.gt saes.«open» (some 100) then "critical" else "high"
      source := "SAE_Dashboard_DM + SAE_Dashboard_Safety" }
  let aging30 := field queries.aging QueryAging.dOver30
  let insight2 : List Insight ←
    if JsNum.gt aging30 (some 0) then do
      let a ← locale aging30
      pure [{ id := 2
              type := "risk"
              icon := "⚠️"
              title := "Query Aging Alert"
              localeParams := [a]
              plainParams := [queries.resolutionRate]
              priority := if JsNum.gt aging30 (some 500) then "critical" else "high"
              source := "CPID_EDC_Metrics.Query Report - Cumulative" }]
    else pure []
  let insight3 : Insight :=
    { id := 3
      type := "trend"
      icon := "📊"
      title := "Data Quality Index Summary"
      localeParams := []
      plainParams := [dqi.map (fun z => (z : ℚ))]
      priority := match dqi with
        | some d => if d < 80 then "high" else "info"
        | none => "info"
      source := "Derived from validated pre-computed metrics" }
  pure ([insight1] ++ insight2 ++ [insight3])

/-- `generateAgentRecommendations(raw, saes, queries, sitesAtRisk)` of the
phase-1 adapter: the fourth, unconditional rule calls
`queries.open.toLocaleString()` without any default. -/
def generateAgentRecommendations (raw : RawSnapshot) (saes : SaesData)
    (queries : QueriesData) (sitesAtRisk : ℚ) : Except String (List Recommendation) := do
  let _ := raw
  let rec1 : List Recommendation ←
    if JsNum.gt saes.«open» (some 0) then do
      let o ← locale saes.«open»
      let p ← locale saes.patientsWithOpenSAE
      pure [{ id := 1, role := "Safety", priority := "CRITICAL"
              action := "Expedite SAE Review & Resolution"
              localeParams := [o, p], plainParams := []
              deadlineDays := 7, source := "SAE_Dashboard" }]
    else pure []
  let aging30 := field queries.aging QueryAging.dOver30
  let rec2 : List Recommendation ←
    if JsNum.gt aging30 (some 0) then do
      let a ← locale aging30
      let impact := JsNum.round (JsNum.mul (JsNum.div aging30 queries.total) (some 100))
      pure [{ id := 2, role := "CRA", priority := "HIGH"
              action := "Address Aging Queries"
              localeParams := [a]
              plainParams := [impact.map (fun z => (z : ℚ))]
              deadlineDays := 14, source := "CPID_EDC_Metrics.Query Report" }]
    else pure []
  let rec3 : List Recommendation :=
    if 0 < sitesAtRisk then
      [{ id := 3, role := "CRA", priority := "MEDIUM"
         action := "Schedule Site Visits"
         localeParams := [sitesAtRisk], plainParams := []
         deadlineDays := 21, source := "Site snapshot" }]
    else []
  let qo ← locale queries.«open»
  let rec4 : Recommendation :=
    { id := 4, role := "DQT"
      priority := if JsNum.lt queries.resolutionRate (some 90) then "HIGH" else "MEDIUM"
      action := "Query Resolution Campaign"
      localeParams := [qo], plainParams := [queries.resolutionRate]
      deadlineDays := 14, source := "CPID_EDC_Metrics" }
  pure (rec1 ++ rec2 ++ rec3 ++ [rec4])

end V1

/-! ## Assembled dashboard model (phase 2) and the mock fallback

Only the model fields some claim refers to are carried; the remaining
output fields of `getRealDashboardData` are independent of these and are
elided from the value object. -/

/-- The executive-KPI slice of the dashboard model. -/
structure ExecutiveKPIs where
  dqiCurrent : JsNum
  readinessStatus : Readiness
  queryResolutionCurrent : ℚ
deriving Repr, DecidableEq

/-- The `trends` sub-object of the dashboard model. -/
structure Trends where
  dqi : List JPoint
  cleanPatients : List JPoint
  openQueries : List JPoint
deriving Repr, DecidableEq

/-- The dashboard model handed to the presentation layer.  `executiveKPIs`
is optional because `app.js` explicitly validates its presence
(`!this.data || !this.data.executiveKPIs`) before rendering. -/
structure DashboardModel where
  executiveKPIs : Option ExecutiveKPIs
  trends : Trends
deriving Repr, DecidableEq

/-- The baseline fixture dataset of `mockData.js` (the slice carried by
`DashboardModel`, with the literal values of the source). -/
def MockData : DashboardModel :=
  { executiveKPIs := some
      { dqiCurrent := some (873/10)
        readinessStatus := .atRisk
        queryResolutionCurrent := 942/10 }
    trends :=
      { dqi :=
          [[("date", .str "2025-10-01"), ("value", .num (782/10))],
           [("date", .str "2025-10-08"), ("value", .num (795/10))],
           [("date", .str "2025-10-15"), ("value", .num (813/10))],
           [("date", .str "2025-10-22"), ("value", .num (828/10))],
           [("date", .str "2025-10-29"), ("value", .num (841/10))],
           [("date", .str "2025-11-05"), ("value", .num (856/10))],
           [("date", .str "2025-11-12"), ("value", .num (873/10))]]
        cleanPatients :=
          [[("date", .str "2025-10-01"), ("value", .num (684/10))],
           [("date", .str "2025-10-08"), ("value", .num (698/10))],
           [("date", .str "2025-10-15"), ("value", .num (709/10))],
           [("date", .str "2025-10-22"), ("value", .num (715/10))],
           [("date", .str "2025-10-29"), ("value", .num (723/10))],
           [("date", .str "2025-11-05"), ("value", .num (741/10))],
           [("date", .str "2025-11-12"), ("value", .num (757/10))]]
        openQueries :=
          [[("date", .str "2025-10-01"), ("value", .num 512)],
           [("date", .str "2025-10-08"), ("value", .num 478)],
           [("date", .str "2025-10-15"), ("value", .num 445)],
           [("date", .str "2025-10-22"), ("value", .num 421)],
           [("date", .str "2025-10-29"), ("value", .num 398)],
           [("date", .str "2025-11-05"), ("value", .num 367)],
           [("date", .str "2025-11-12"), ("value", .num 342)]] } }

namespace V2

/-- The transformation half of `getRealDashboardData` on a retrieved
snapshot: the claim-relevant fields of the returned object, with one
random stream per `Math.random()`-consuming trend call. -/
def buildDashboardModel (raw : RawSnapshot) (randDqi randClean randOpen : ℕ → ℚ) :
    DashboardModel :=
  { executiveKPIs := some
      { dqiCurrent := (dqi raw).map (fun z => (z : ℚ))
        readinessStatus := readinessStatus raw
        queryResolutionCurrent := JsNum.orD (field raw.queries QueriesData.resolutionRate) 0 }
    trends :=
      { dqi := selectDqiTrend raw.dqiTrend ((dqi raw).map (fun z => (z : ℚ))) randDqi
        cleanPatients := generateTrendData (cleanPatientPercent raw) 7 false randClean
        openQueries :=
          generateTrendData (JsNum.orD (field raw.queries QueriesData.«open») 0) 7 true randOpen } }

/-- `loadRealData` for one refresh with an empty module cache: the embedded
`RealData` variable wins; otherwise the fetch result is used; a failed
fetch yields `null`. -/
def loadRealData (embedded : Option RawSnapshot) (fetched : Except String RawSnapshot) :
    Option RawSnapshot :=
  match embedded with
  | some d => some d
  | none =>
    match fetched with
    | .ok d => some d
    | .error _ => none

/-- `getRealDashboardData`: `if (!raw) return MockData` and otherwise the
pure transformation of the snapshot. -/
def getRealDashboardData (retrieved : Option RawSnapshot)
    (randDqi randClean randOpen : ℕ → ℚ) : DashboardModel :=
  match retrieved with
  | none => MockData
  | some raw => buildDashboardModel raw randDqi randClean randOpen

end V2

/-! ## Concrete inputs used by the claims -/

/-- The end-to-end scenario snapshot: `queries = {total: 1000, open: 200,
resolutionRate: 80}`, `saes = {total: 500, open: 0}`, every other counter
category present and zero. -/
def c1raw : RawSnapshot :=
  { queries := some { total := some 1000, «open» := some 200, resolutionRate := some 80 }
    saes := some { total := some 500, «open» := some 0 }
    visits := some { totalMissing := some 0, overdue30Days := some 0 }
    lab := some { totalIssues := some 0 }
    coding := some { meddra := some { total := some 0, uncoded := some 0 }
                     whodd := some { total := some 0, uncoded := some 0 }
                     totalUncoded := some 0 }
    sdv := some { total := some 0, verified := some 0, pending := some 0,
                  verificationRate := some 0 }
    signatures := some { pending := some 0, overdue := some 0 } }

/-- A snapshot carrying exactly the two counters the readiness ladder
reads. -/
def classifyInput (saesOpen rate : JsNum) : RawSnapshot :=
  { queries := some { resolutionRate := rate }
    saes := some { «open» := saesOpen } }

/-- A random stream that always draws `1/2` (zero jitter). -/
def halfRand : ℕ → ℚ := fun _ => 1/2

/-- A random stream that always draws `0` (maximal negative jitter). -/
def zeroRand : ℕ → ℚ := fun _ => 0

/-- A snapshot that supplies its own non-degenerate dqi trend series (so
trend synthesis for the DQI series is disabled) and enough patient data to
make the clean-patient percentage non-zero. -/
def c7raw : RawSnapshot :=
  { saes := some { patientsWithOpenSAE := some 100 }
    dqiTrend := some [[("date", .str "2025-10-01"), ("value", .num 60)]] }

/-- A region tree with exactly three site leaves. -/
def threeSiteRegions : List (String × RegionData) :=
  [("North America",
    { countries :=
        [("USA",
          { total_sites := some 3
            total_queries := some 30
            open_queries := some 16
            sites :=
              [("s1", { patients := some 10, total_queries := some 10, open_queries := some 2 }),
               ("s2", { patients := some 20, total_queries := some 10, open_queries := some 5 }),
               ("s3", { patients := some 30, total_queries := some 10, open_queries := some 9 })]
          })] })]

/-- A region tree with ten site leaves carrying pairwise distinct ids. -/
def tenSiteRegions : List (String × RegionData) :=
  [("North America",
    { countries :=
        [("USA",
          { sites :=
              [("s1", { patients := some 10, total_queries := some 10, open_queries := some 0 }),
               ("s2", { patients := some 10, total_queries := some 10, open_queries := some 1 }),
               ("s3", { patients := some 10, total_queries := some 10, open_queries := some 2 }),
               ("s4", { patients := some 10, total_queries := some 10, open_queries := some 3 }),
               ("s5", { patients := some 10, total_queries := some 10, open_queries := some 4 })]
          }),
         ("CAN",
          { sites :=
              [("s6", { patients := some 10, total_queries := some 10, open_queries := some 5 }),
               ("s7", { patients := some 10, total_queries := some 10, open_queries := some 6 }),
               ("s8", { patients := some 10, total_queries := some 10, open_queries := some 7 }),
               ("s9", { patients := some 10, total_queries := some 10, open_queries := some 8 }),
               ("s10", { patients := some 10, total_queries := some 10, open_queries := some 9 })]
          })] })]

end NestDashboard

namespace NestDashboard

/-! ## Claims -/

set_option maxHeartbeats 1000000

/-- C1: the claim expects the composite DQI of the end-to-end snapshot to
be 95 (fail-open ratio 1.0 for every empty category).  The code disagrees:
the phase-2 formula defaults the SDV verification rate to 0 (not 1.0) and
yields 85, and the phase-1 formula uses the fixed estimates
0.75/0.85/0.90 and yields 87. -/
theorem claim_C1_counterexample : V2.dqi c1raw ≠ some 95 ∧ V1.dqi c1raw ≠ some 95 := by
  constructor
  · norm_num [V2.dqi, V2.saeResolutionScore, V2.queryResolutionScore, V2.sdvScore,
      V2.visitScore, V2.labScore, V2.codingScore, V2.signatureScore, c1raw, field,
      JsNum.add, JsNum.mul, JsNum.sub, JsNum.div, JsNum.gt, JsNum.orD, JsNum.round,
      JsNum.max', JsNum.min', jsRound_eq]
  · norm_num [V1.dqi, V1.saeResolutionScore, V1.queryResolutionScore, c1raw, field,
      JsNum.add, JsNum.mul, JsNum.sub, JsNum.div, JsNum.gt, JsNum.orD, JsNum.round,
      jsRound_eq]

/-- C1 (amended): for the end-to-end snapshot the composite DQI is 85 under
the phase-2 seven-term formula (the SDV rate defaults to 0, not to the
fail-open 1.0) and 87 under the phase-1 five-term formula (fixed estimates
0.75/0.85/0.90 for the non-extracted categories). -/
theorem claim_C1_amended : V2.dqi c1raw = some 85 ∧ V1.dqi c1raw = some 87 := by
  constructor
  · norm_num [V2.dqi, V2.saeResolutionScore, V2.queryResolutionScore, V2.sdvScore,
      V2.visitScore, V2.labScore, V2.codingScore, V2.signatureScore, c1raw, field,
      JsNum.add, JsNum.mul, JsNum.sub, JsNum.div, JsNum.gt, JsNum.orD, JsNum.round,
      JsNum.max', JsNum.min', jsRound_eq]
  · norm_num [V1.dqi, V1.saeResolutionScore, V1.queryResolutionScore, c1raw, field,
      JsNum.add, JsNum.mul, JsNum.sub, JsNum.div, JsNum.gt, JsNum.orD, JsNum.round,
      jsRound_eq]

/-- C2: the claim asserts `classify(5, 90)` is not-ready under the 100/85
ladder; the phase-2 code (ceiling 100, floor 85) classifies it at-risk,
since 5 < 100 and 90 ≥ 85. -/
theorem claim_C2_counterexample :
    V2.readinessStatus (classifyInput (some 5) (some 90)) = .atRisk ∧
    V2.readinessStatus (classifyInput (some 5) (some 90)) ≠ .notReady := by
  have h : V2.readinessStatus (classifyInput (some 5) (some 90)) = .atRisk := by
    norm_num [V2.readinessStatus, V2.queryResolutionScore, classifyInput, field,
      JsNum.eq, JsNum.lt, JsNum.orD]
  exact ⟨h, by rw [h]; exact fun hc => nomatch hc⟩

/-- C2 (amended): the readiness classification is a first-match ladder on
`(openSAEs, queryResolutionRate)`: ready iff `openSAEs = 0 ∧ rate ≥ 98`,
otherwise at-risk iff `openSAEs < ceiling ∧ rate ≥ floor`, otherwise
not-ready — with ceiling/floor 100/85 in the phase-2 adapter and 10/90 in
the phase-1 adapter.  `classify(0, 98) = ready` and `classify(5, 90) =
at-risk` under both ladders (not not-ready as the claim stated for
100/85). -/
theorem claim_C2_amended :
    (∀ (o r : ℚ),
      (V2.readinessStatus (classifyInput (some o) (some r)) = .ready ↔ o = 0 ∧ 98 ≤ r) ∧
      (V2.readinessStatus (classifyInput (some o) (some r)) = .atRisk ↔
        ¬(o = 0 ∧ 98 ≤ r) ∧ o < 100 ∧ 85 ≤ r) ∧
      (V2.readinessStatus (classifyInput (some o) (some r)) = .notReady ↔
        ¬(o = 0 ∧ 98 ≤ r) ∧ ¬(o < 100 ∧ 85 ≤ r)) ∧
      (V1.readinessStatus (classifyInput (some o) (some r)) = .ready ↔ o = 0 ∧ 98 ≤ r) ∧
      (V1.readinessStatus (classifyInput (some o) (some r)) = .atRisk ↔
        ¬(o = 0 ∧ 98 ≤ r) ∧ o < 10 ∧ 90 ≤ r) ∧
      (V1.readinessStatus (classifyInput (some o) (some r)) = .notReady ↔
        ¬(o = 0 ∧ 98 ≤ r) ∧ ¬(o < 10 ∧ 90 ≤ r))) ∧
    V2.readinessStatus (classifyInput (some 0) (some 98)) = .ready ∧
    V1.readinessStatus (classifyInput (some 0) (some 98)) = .ready ∧
    V2.readinessStatus (classifyInput (some 5) (some 90)) = .atRisk ∧
    V1.readinessStatus (classifyInput (some 5) (some 90)) = .atRisk := by
  refine ⟨fun o r => ?_, ?_, ?_, ?_, ?_⟩
  · have hq : V2.queryResolutionScore (classifyInput (some o) (some r)) =
        if r = 0 then 0 else r := by
      simp [V2.queryResolutionScore, classifyInput, field, JsNum.orD]
    simp only [V2.readinessStatus, V1.readinessStatus, hq]
    simp only [classifyInput, field, JsNum.eq, JsNum.lt, JsNum.ge, Bool.and_eq_true,
      decide_eq_true_eq]
    rcases eq_or_ne r 0 with hr | hr
    · subst hr
      simp only [if_pos rfl]
      split_ifs <;> simp_all
    · rw [if_neg hr]
      split_ifs <;> simp_all
  · norm_num [V2.readinessStatus, V2.queryResolutionScore, classifyInput, field,
      JsNum.eq, JsNum.lt, JsNum.orD]
  · norm_num [V1.readinessStatus, classifyInput, field, JsNum.eq, JsNum.lt, JsNum.ge]
  · norm_num [V2.readinessStatus, V2.queryResolutionScore, classifyInput, field,
      JsNum.eq, JsNum.lt, JsNum.orD]
  · norm_num [V1.readinessStatus, classifyInput, field, JsNum.eq, JsNum.lt, JsNum.ge]

/-- C10: when `saes.open` is absent, the readiness status is not-ready for
every query-resolution rate: the ladder compares the absent counter with
`=== 0` and `< ceiling`, both false for `undefined`, in both adapter
phases. -/
theorem claim_C10_absent_open_not_ready :
    ∀ (raw : RawSnapshot), field raw.saes SaesData.«open» = none →
      V2.readinessStatus raw = .notReady ∧ V1.readinessStatus raw = .notReady := by
  intro raw h
  constructor
  · simp only [V2.readinessStatus, h, JsNum.eq, JsNum.lt, Bool.false_and, Bool.and_eq_true]
    simp
  · simp only [V1.readinessStatus, h, JsNum.eq, JsNum.lt, Bool.false_and, Bool.and_eq_true]
    simp

/-- C10 witness: a concrete snapshot whose `saes` object lacks `open` and
whose resolution rate is 99 is still classified not-ready by both
adapters. -/
theorem claim_C10_witness :
    field (classifyInput none (some 99)).saes SaesData.«open» = none ∧
    V2.readinessStatus (classifyInput none (some 99)) = .notReady ∧
    V1.readinessStatus (classifyInput none (some 99)) = .notReady := by
  refine ⟨rfl, ?_⟩
  exact claim_C10_absent_open_not_ready (classifyInput none (some 99)) rfl

/-- Unfolded characterization of the three-way status ladder. -/
theorem nodeStatus_iff (d : ℤ) :
    (nodeStatus d = .healthy ↔ 85 ≤ d) ∧
    (nodeStatus d = .atRisk ↔ 70 ≤ d ∧ d < 85) ∧
    (nodeStatus d = .critical ↔ d < 70) := by
  unfold nodeStatus
  split_ifs <;> simp_all
  omega

/-- C4: every site leaf and every country node derives
`resolutionRate = (total − open)/total × 100` when `total > 0` (and `100`
otherwise, after the `|| 0` defaults), `score = round(rate × 0.8 + 20)`,
`cleanPercent = round(rate × 0.85)`, and the status is healthy iff
`score ≥ 85`, at-risk iff `70 ≤ score < 85`, critical otherwise. -/
theorem claim_C4_node_formulas :
    ∀ (cc sid : String) (sd : SiteData) (cd : CountryData),
      (let t := JsNum.orD sd.total_queries 0
       let o := JsNum.orD sd.open_queries 0
       let r : ℚ := if 0 < t then (t - o) / t * 100 else 100
       let e := makeSiteEntity cc sid sd
       e.dqi = jsRound (r * (8/10) + 20) ∧
       e.cleanPercent = jsRound (r * (85/100)) ∧
       (e.status = .healthy ↔ 85 ≤ e.dqi) ∧
       (e.status = .atRisk ↔ 70 ≤ e.dqi ∧ e.dqi < 85) ∧
       (e.status = .critical ↔ e.dqi < 70)) ∧
      (let t := JsNum.orD cd.total_queries 0
       let o := JsNum.orD cd.open_queries 0
       let r : ℚ := if 0 < t then (t - o) / t * 100 else 100
       let e := makeCountryEntity cc cd
       e.dqi = jsRound (r * (8/10) + 20) ∧
       e.cleanPercent = jsRound (r * (85/100)) ∧
       (e.status = .healthy ↔ 85 ≤ e.dqi) ∧
       (e.status = .atRisk ↔ 70 ≤ e.dqi ∧ e.dqi < 85) ∧
       (e.status = .critical ↔ e.dqi < 70)) := by
  intro cc sid sd cd
  constructor
  · obtain ⟨h1, h2, h3⟩ := nodeStatus_iff (makeSiteEntity cc sid sd).dqi
    exact ⟨rfl, rfl, h1, h2, h3⟩
  · obtain ⟨h1, h2, h3⟩ := nodeStatus_iff (makeCountryEntity cc cd).dqi
    exact ⟨rfl, rfl, h1, h2, h3⟩

/-- C8: when raw-snapshot retrieval fails (no embedded `RealData` and the
fetch rejects), `loadRealData` yields `null` and `getRealDashboardData`
returns the `MockData` fixture, whose `executiveKPIs` structure is
present, so the caller always receives a structurally valid model. -/
theorem claim_C8_mock_fallback :
    ∀ (e : String) (r1 r2 r3 : ℕ → ℚ),
      V2.getRealDashboardData (V2.loadRealData none (.error e)) r1 r2 r3 = MockData ∧
      (V2.getRealDashboardData (V2.loadRealData none (.error e)) r1 r2 r3).executiveKPIs.isSome
        = true := by
  intro e r1 r2 r3
  exact ⟨rfl, rfl⟩

/-- C9: the phase-1 insight and recommendation generators do throw on
conforming snapshots.  With `saes` lacking `open` the unconditional first
insight evaluates `saes.open.toLocaleString()` and raises a `TypeError`;
with `queries` lacking `open` the unconditional fourth recommendation
evaluates `queries.open.toLocaleString()` and raises a `TypeError` — for
every composite score and sites-at-risk count the pipeline may pass. -/
theorem claim_C9_generators_throw :
    ∀ (dqi : Option ℤ) (sitesAtRisk : ℚ),
      V1.generateAIInsights {} dqi sitesAtRisk {} {} =
        .error "TypeError: Cannot read properties of undefined (reading toLocaleString)" ∧
      V1.generateAgentRecommendations {} {} {} sitesAtRisk =
        .error "TypeError: Cannot read properties of undefined (reading toLocaleString)" := by
  intro dqi sitesAtRisk
  exact ⟨rfl, rfl⟩

/-- Bounds for `Math.round`: if `a ≤ q + 1/2` and `q + 1/2 < b + 1` then
the rounded value lies in `[a, b]`. -/
theorem jsRound_mem {q : ℚ} {a b : ℤ} (h1 : (a : ℚ) ≤ q + 1/2) (h2 : q + 1/2 < (b : ℚ) + 1) :
    a ≤ jsRound q ∧ jsRound q ≤ b := by
  rw [jsRound_eq]
  exact ⟨Int.le_floor.mpr h1, Int.floor_le_iff.mpr (by linarith)⟩

/-- C6: the claim expects every synthesized trend point to carry
`synthetic: true`.  The generated points are `{date, value}` objects with
no `synthetic` field at all: on the claimed call (current value 80,
history length 7, empty provided series, jitter draws fixed at 1/2) all
seven points lack the flag. -/
theorem claim_C6_counterexample :
    (selectDqiTrend (some []) (some 80) halfRand).length = 7 ∧
    (selectDqiTrend (some []) (some 80) halfRand).map (fun p => p.lookup "synthetic") =
      [none, none, none, none, none, none, none] := ⟨rfl, rfl⟩

/-- C6 (amended): synthesizing with current value 80, history length 7 and
an empty provided series yields exactly 7 points with chronologically
increasing dates, the last point's value within the jitter tolerance
(within 3 of 80 after rounding, for draws in `[0, 1]`) — but the points
carry only `date` and `value` fields, never a `synthetic: true` flag. -/
theorem claim_C6_trend (rand : ℕ → ℚ) (hb : ∀ n, 0 ≤ rand n ∧ rand n ≤ 1) :
    (selectDqiTrend (some []) (some 80) rand).length = 7 ∧
    List.Pairwise (fun p q => ∃ a b : ℚ, p.lookup "date" = some (.num a) ∧
      q.lookup "date" = some (.num b) ∧ a < b) (selectDqiTrend (some []) (some 80) rand) ∧
    (∃ p v, (selectDqiTrend (some []) (some 80) rand).getLast? = some p ∧
      p.lookup "value" = some (.num v) ∧ |v - 80| ≤ 3) ∧
    (∀ p ∈ selectDqiTrend (some []) (some 80) rand, p.lookup "synthetic" = none) := by
  have hsel : selectDqiTrend (some []) (some 80) rand = generateDQITrend (some 80) 7 rand := rfl
  have hr7 : List.range 7 = [0, 1, 2, 3, 4, 5, 6] := rfl
  rw [hsel]
  unfold generateDQITrend
  rw [hr7]
  simp only [List.map_cons, List.map_nil]
  refine ⟨by norm_num, by norm_num [List.pairwise_cons], ?_, ?_⟩
  · have h6 := hb 6
    have hy : (20 : ℚ) ≤ 80 + (rand 6 - 1/2) * 5 := by nlinarith [h6.1, h6.2]
    norm_num [JsNum.add, JsNum.sub, JsNum.max', JsNum.round, jnumOf]
    refine ⟨_, rfl, ?_⟩
    rw [max_eq_right hy]
    have hm := jsRound_mem (q := 80 + (rand 6 - 1/2) * 5) (a := 78) (b := 83)
      (by push_cast; nlinarith [h6.1, h6.2]) (by push_cast; nlinarith [h6.1, h6.2])
    rw [abs_le]
    have hc1 : ((78 : ℤ) : ℚ) ≤ ((jsRound (80 + (rand 6 - 1/2) * 5) : ℤ) : ℚ) := by
      exact_mod_cast hm.1
    have hc2 : ((jsRound (80 + (rand 6 - 1/2) * 5) : ℤ) : ℚ) ≤ ((83 : ℤ) : ℚ) := by
      exact_mod_cast hm.2
    constructor <;> push_cast at hc1 hc2 ⊢ <;> linarith
  · intro p hp
    fin_cases hp <;> rfl

/-- C6 witness: the trend theorem instantiated at the constant draw `1/2`. -/
theorem claim_C6_trend_witness :
    (∀ n, 0 ≤ halfRand n ∧ halfRand n ≤ 1) ∧
    ((selectDqiTrend (some []) (some 80) halfRand).length = 7 ∧
     List.Pairwise (fun p q => ∃ a b : ℚ, p.lookup "date" = some (.num a) ∧
       q.lookup "date" = some (.num b) ∧ a < b) (selectDqiTrend (some []) (some 80) halfRand) ∧
     (∃ p v, (selectDqiTrend (some []) (some 80) halfRand).getLast? = some p ∧
       p.lookup "value" = some (.num v) ∧ |v - 80| ≤ 3) ∧
     (∀ p ∈ selectDqiTrend (some []) (some 80) halfRand, p.lookup "synthetic" = none)) :=
  ⟨fun _ => by norm_num [halfRand],
   claim_C6_trend halfRand (fun _ => by norm_num [halfRand])⟩

/-- C7: the pipeline is not deterministic even with DQI-trend synthesis
disabled.  On a snapshot that supplies its own non-degenerate dqi trend
(used verbatim, as the last two conjuncts show), two runs that differ only
in their `Math.random()` draws produce different models, because the
clean-patient and open-query trend series are always synthesized with
random jitter — contradicting the adapter's own governance statement that
all outputs are deterministic. -/
theorem claim_C7_random_models_differ :
    V2.buildDashboardModel c7raw halfRand zeroRand halfRand ≠
      V2.buildDashboardModel c7raw halfRand halfRand halfRand ∧
    (V2.buildDashboardModel c7raw halfRand zeroRand halfRand).trends.dqi =
      [[("date", .str "2025-10-01"), ("value", .num 60)]] ∧
    (V2.buildDashboardModel c7raw halfRand halfRand halfRand).trends.dqi =
      [[("date", .str "2025-10-01"), ("value", .num 60)]] := by
  refine ⟨?_, ?_, ?_⟩
  · have h : (V2.buildDashboardModel c7raw halfRand zeroRand halfRand).trends.cleanPatients ≠
        (V2.buildDashboardModel c7raw halfRand halfRand halfRand).trends.cleanPatients := by
      norm_num [V2.buildDashboardModel, generateTrendData, V2.cleanPatientPercent,
        V2.cleanPatients, V2.totalUniquePatients, c7raw, field, JsNum.orD, zeroRand, halfRand,
        jsRound_eq, List.range_succ]
    exact fun hc => h (by rw [hc])
  · norm_num [V2.buildDashboardModel, selectDqiTrend, c7raw, List.lookup]
    intro h
    exact absurd h (by decide)
  · norm_num [V2.buildDashboardModel, selectDqiTrend, c7raw, List.lookup]
    intro h
    exact absurd h (by decide)

/-- Inserting with `insertByDqi` permutes the element onto the list. -/
theorem insertByDqi_perm (x : SiteEntity) (l : List SiteEntity) :
    (insertByDqi x l).Perm (x :: l) := by
  induction l with
  | nil => exact List.Perm.refl _
  | cons y ys ih =>
    simp only [insertByDqi]
    split_ifs with h
    · exact List.Perm.refl _
    · exact (ih.cons y).trans (List.Perm.swap x y ys)

/-- The descending stable sort is a permutation of its input. -/
theorem sortByDqiDesc_perm (l : List SiteEntity) : (sortByDqiDesc l).Perm l := by
  induction l with
  | nil => exact List.Perm.refl _
  | cons x xs ih => exact (insertByDqi_perm x (sortByDqiDesc xs)).trans (ih.cons x)

/-- In a duplicate-free list, a prefix and the matching suffix share no
element. -/
theorem nodup_take_disjoint_drop {α : Type} {l : List α} (h : l.Nodup) (k : ℕ) :
    ∀ a ∈ l.take k, a ∉ l.drop k := by
  intro a ha hd
  rw [← List.take_append_drop k l] at h
  exact (List.nodup_append.mp h).2.2 ha hd

/-- C5: when the flat site list has at least 10 pairwise distinct entries,
`topSites` (first five of the descending sort) and `bottomSites` (last
five, reversed) share no site; on the three-site tree the two lists do
overlap. -/
theorem claim_C5_rankings :
    (∀ (rawRegions : List (String × RegionData)),
      (allSitesOf rawRegions).Nodup → 10 ≤ (allSitesOf rawRegions).length →
      ∀ e ∈ (calculateSiteRankings rawRegions).1, e ∉ (calculateSiteRankings rawRegions).2) ∧
    (∃ e, e ∈ (calculateSiteRankings threeSiteRegions).1 ∧
      e ∈ (calculateSiteRankings threeSiteRegions).2) := by
  constructor
  · intro R hnd hlen e hetop hebot
    simp only [calculateSiteRankings] at hetop hebot
    have hperm := sortByDqiDesc_perm (allSitesOf R)
    have hnd' : (sortByDqiDesc (allSitesOf R)).Nodup := hperm.nodup_iff.mpr hnd
    have hlen' : 10 ≤ (sortByDqiDesc (allSitesOf R)).length := by
      rw [hperm.length_eq]; exact hlen
    rw [List.mem_reverse] at hebot
    have hsplit : (sortByDqiDesc (allSitesOf R)).length - 5 =
        5 + ((sortByDqiDesc (allSitesOf R)).length - 10) := by omega
    rw [hsplit, ← List.drop_drop] at hebot
    exact nodup_take_disjoint_drop hnd' 5 e hetop (List.drop_subset _ _ hebot)
  · have hlen3 : (sortByDqiDesc (allSitesOf threeSiteRegions)).length = 3 := by
      rw [(sortByDqiDesc_perm _).length_eq]; rfl
    have hne : sortByDqiDesc (allSitesOf threeSiteRegions) ≠ [] := by
      intro h
      rw [h] at hlen3
      exact absurd hlen3 (by decide)
    obtain ⟨e, he⟩ := List.exists_mem_of_ne_nil _ hne
    refine ⟨e, ?_, ?_⟩
    · simp only [calculateSiteRankings]
      rw [List.take_of_length_le (by omega)]
      exact he
    · simp only [calculateSiteRankings]
      rw [List.mem_reverse, hlen3]
      rw [show (3 - 5 : ℕ) = 0 from rfl, List.drop_zero]
      exact he

/-- C5 witness: the disjointness applied to the concrete ten-site tree. -/
theorem claim_C5_witness :
    (allSitesOf tenSiteRegions).Nodup ∧ 10 ≤ (allSitesOf tenSiteRegions).length ∧
    (∀ e ∈ (calculateSiteRankings tenSiteRegions).1,
      e ∉ (calculateSiteRankings tenSiteRegions).2) := by
  have hids : (allSitesOf tenSiteRegions).map SiteEntity.id =
      ["s1", "s2", "s3", "s4", "s5", "s6", "s7", "s8", "s9", "s10"] := rfl
  have hnd : (allSitesOf tenSiteRegions).Nodup := by
    apply List.Nodup.of_map SiteEntity.id
    rw [hids]
    decide
  have hlen : 10 ≤ (allSitesOf tenSiteRegions).length := by
    have h10 : (allSitesOf tenSiteRegions).length = 10 := by
      rw [← List.length_map (allSitesOf tenSiteRegions) SiteEntity.id, hids]
      rfl
    omega
  exact ⟨hnd, hlen, claim_C5_rankings.1 tenSiteRegions hnd hlen⟩

/-! ## Score bounds (claim C3) -/

/-- A resolution ratio scaled to percent stays in `[0, 100]` when the
outstanding count is between 0 and the total. -/
theorem ratio_bounds {t o : ℚ} (h0 : 0 ≤ o) (h1 : o ≤ t) (ht : 0 < t) :
    0 ≤ (t - o) / t * 100 ∧ (t - o) / t * 100 ≤ 100 := by
  constructor
  · have : 0 ≤ (t - o) / t := div_nonneg (by linarith) ht.le
    linarith
  · rw [div_mul_eq_mul_div, div_le_iff₀ ht]
    nlinarith

/-- The `Math.max(0, 100 - Math.min(100, m / c))` clamp stays in
`[0, 100]` for a non-negative counter. -/
theorem clamp_bounds {m c : ℚ} (hm : 0 ≤ m) (hc : 0 < c) :
    0 ≤ max 0 (100 - min 100 (m / c)) ∧ max 0 (100 - min 100 (m / c)) ≤ 100 := by
  refine ⟨le_max_left 0 _, max_le (by norm_num) ?_⟩
  have : 0 ≤ min 100 (m / c) := le_min (by norm_num) (div_nonneg hm hc.le)
  linarith

/-- Rounding keeps a value of `[0, 100]` in `[0, 100]`. -/
theorem jsRound_unit {q : ℚ} (h0 : 0 ≤ q) (h1 : q ≤ 100) :
    0 ≤ jsRound q ∧ jsRound q ≤ 100 :=
  jsRound_mem (by push_cast; linarith) (by push_cast; linarith)

/-- The per-node proxy resolution rate stays in `[0, 100]` when the
defaulted counters satisfy `0 ≤ open ≤ total`. -/
theorem nodeResolutionRate_bounds {t o : ℚ} (h0 : 0 ≤ o) (h1 : o ≤ t) :
    0 ≤ nodeResolutionRate t o ∧ nodeResolutionRate t o ≤ 100 := by
  unfold nodeResolutionRate
  split_ifs with ht
  · exact ratio_bounds h0 h1 ht
  · norm_num

/-- Counter sanity for one site leaf, after the `|| 0` defaults. -/
def SiteCountersOk (sd : SiteData) : Prop :=
  0 ≤ JsNum.orD sd.open_queries 0 ∧
  JsNum.orD sd.open_queries 0 ≤ JsNum.orD sd.total_queries 0

/-- Counter sanity for one country node, after the `|| 0` defaults. -/
def CountryCountersOk (cd : CountryData) : Prop :=
  0 ≤ JsNum.orD cd.open_queries 0 ∧
  JsNum.orD cd.open_queries 0 ≤ JsNum.orD cd.total_queries 0

/-- Counter sanity for a whole region tree. -/
def RegionsCountersOk (rawRegions : List (String × RegionData)) : Prop :=
  ∀ r ∈ rawRegions, ∀ c ∈ r.2.countries,
    CountryCountersOk c.2 ∧ ∀ s ∈ c.2.sites, SiteCountersOk s.2

/-- Per-site entity score bounds. -/
theorem makeSiteEntity_bounds (cc sid : String) (sd : SiteData) (h : SiteCountersOk sd) :
    0 ≤ (makeSiteEntity cc sid sd).dqi ∧ (makeSiteEntity cc sid sd).dqi ≤ 100 ∧
    0 ≤ (makeSiteEntity cc sid sd).cleanPercent ∧
    (makeSiteEntity cc sid sd).cleanPercent ≤ 100 := by
  obtain ⟨hr0, hr1⟩ := nodeResolutionRate_bounds h.1 h.2
  have hdqi := jsRound_mem
    (q := nodeResolutionRate (JsNum.orD sd.total_queries 0) (JsNum.orD sd.open_queries 0) *
      (8/10) + 20) (a := 0) (b := 100)
    (by push_cast; nlinarith) (by push_cast; nlinarith)
  have hclean := jsRound_unit
    (q := nodeResolutionRate (JsNum.orD sd.total_queries 0) (JsNum.orD sd.open_queries 0) *
      (85/100)) (by nlinarith) (by nlinarith)
  exact ⟨hdqi.1, hdqi.2, hclean.1, hclean.2⟩

/-- Per-country entity score bounds. -/
theorem makeCountryEntity_bounds (cc : String) (cd : CountryData) (h : CountryCountersOk cd) :
    0 ≤ (makeCountryEntity cc cd).dqi ∧ (makeCountryEntity cc cd).dqi ≤ 100 ∧
    0 ≤ (makeCountryEntity cc cd).cleanPercent ∧
    (makeCountryEntity cc cd).cleanPercent ≤ 100 := by
  obtain ⟨hr0, hr1⟩ := nodeResolutionRate_bounds h.1 h.2
  have hdqi := jsRound_mem
    (q := nodeResolutionRate (JsNum.orD cd.total_queries 0) (JsNum.orD cd.open_queries 0) *
      (8/10) + 20) (a := 0) (b := 100)
    (by push_cast; nlinarith) (by push_cast; nlinarith)
  have hclean := jsRound_unit
    (q := nodeResolutionRate (JsNum.orD cd.total_queries 0) (JsNum.orD cd.open_queries 0) *
      (85/100)) (by nlinarith) (by nlinarith)
  exact ⟨hdqi.1, hdqi.2, hclean.1, hclean.2⟩

/-- A site leaf whose open-query counter exceeds its total. -/
def c3site : SiteData := { total_queries := some 1, open_queries := some 101 }

/-- A full snapshot whose open-SAE counter (1000) exceeds its total (1). -/
def c3raw : RawSnapshot :=
  { queries := some { total := some 0, «open» := some 0, resolutionRate := some 0 }
    saes := some { total := some 1, «open» := some 1000 }
    visits := some { totalMissing := some 0, overdue30Days := some 0 }
    lab := some { totalIssues := some 0 }
    coding := some { meddra := some { total := some 0, uncoded := some 0 }
                     whodd := some { total := some 0, uncoded := some 0 }
                     totalUncoded := some 0 }
    sdv := some { total := some 0, verified := some 0, pending := some 0,
                  verificationRate := some 0 }
    signatures := some { pending := some 0, overdue := some 0 } }

/-- C3: with non-negative integer counters where an open counter exceeds
its total, derived scores leave `[0, 100]`: a site with 1 total and 101
open queries scores −7980, and the composite DQI of a snapshot with 1
total and 1000 open SAEs is −29935 (phase 2) resp. −29933 (phase 1) — the
code never clamps. -/
theorem claim_C3_counterexample :
    (makeSiteEntity "USA" "S1" c3site).dqi = -7980 ∧
    V2.dqi c3raw = some (-29935) ∧ V1.dqi c3raw = some (-29933) := by
  refine ⟨?_, ?_, ?_⟩
  · norm_num [makeSiteEntity, nodeDqi, nodeResolutionRate, c3site, JsNum.orD, jsRound_eq]
  · norm_num [V2.dqi, V2.saeResolutionScore, V2.queryResolutionScore, V2.sdvScore,
      V2.visitScore, V2.labScore, V2.codingScore, V2.signatureScore, c3raw, field,
      JsNum.add, JsNum.mul, JsNum.sub, JsNum.div, JsNum.gt, JsNum.orD, JsNum.round,
      JsNum.max', JsNum.min', jsRound_eq]
  · norm_num [V1.dqi, V1.saeResolutionScore, V1.queryResolutionScore, c3raw, field,
      JsNum.add, JsNum.mul, JsNum.sub, JsNum.div, JsNum.gt, JsNum.orD, JsNum.round,
      jsRound_eq]

/-- C3 (amended): when every open/outstanding counter is between 0 and its
total and every precomputed rate lies in `[0, 100]`, all derived scores
stay in `[0, 100]`: every per-site score and clean percentage, every
per-country score and clean percentage, and the composite DQI of both
adapter phases. -/
theorem claim_C3_amended :
    (∀ (rawRegions : List (String × RegionData)), RegionsCountersOk rawRegions →
      ∀ e ∈ allSitesOf rawRegions, 0 ≤ e.dqi ∧ e.dqi ≤ 100 ∧
        0 ≤ e.cleanPercent ∧ e.cleanPercent ≤ 100) ∧
    (∀ (rawRegions : List (String × RegionData)), RegionsCountersOk rawRegions →
      ∀ re ∈ transformRegionsData rawRegions, ∀ ce ∈ re.countries,
        0 ≤ ce.dqi ∧ ce.dqi ≤ 100 ∧ 0 ≤ ce.cleanPercent ∧ ce.cleanPercent ≤ 100) ∧
    (∀ (raw : RawSnapshot) (qr st so vm li mt mu vr sg : ℚ),
      field raw.queries QueriesData.resolutionRate = some qr → 0 ≤ qr → qr ≤ 100 →
      field raw.saes SaesData.total = some st →
      field raw.saes SaesData.«open» = some so → 0 ≤ so → so ≤ st →
      field raw.visits VisitsData.totalMissing = some vm → 0 ≤ vm →
      field raw.lab LabData.totalIssues = some li → 0 ≤ li →
      field (raw.coding.bind CodingData.meddra) CodingPair.total = some mt →
      field (raw.coding.bind CodingData.meddra) CodingPair.uncoded = some mu →
      0 ≤ mu → mu ≤ mt →
      field raw.sdv SdvData.verificationRate = some vr → 0 ≤ vr → vr ≤ 100 →
      field raw.signatures SignaturesData.overdue = some sg → 0 ≤ sg →
      ∃ d, V2.dqi raw = some d ∧ 0 ≤ d ∧ d ≤ 100) ∧
    (∀ (raw : RawSnapshot) (qr st so : ℚ),
      field raw.queries QueriesData.resolutionRate = some qr → 0 ≤ qr → qr ≤ 100 →
      field raw.saes SaesData.total = some st →
      field raw.saes SaesData.«open» = some so → 0 ≤ so → so ≤ st →
      ∃ d, V1.dqi raw = some d ∧ 0 ≤ d ∧ d ≤ 100) := by
  refine ⟨?_, ?_, ?_, ?_⟩
  · intro R hOk e he
    rw [allSitesOf, List.mem_flatMap] at he
    obtain ⟨r, hr, he⟩ := he
    rw [List.mem_flatMap] at he
    obtain ⟨c, hc, he⟩ := he
    rw [List.mem_map] at he
    obtain ⟨s, hs, rfl⟩ := he
    exact makeSiteEntity_bounds _ _ _ ((hOk r hr c hc).2 s hs)
  · intro R hOk re hre ce hce
    rw [transformRegionsData, List.mem_map] at hre
    obtain ⟨r, hr, rfl⟩ := hre
    rw [List.mem_map] at hce
    obtain ⟨c, hc, rfl⟩ := hce
    exact makeCountryEntity_bounds _ _ (hOk r hr c hc).1
  · intro raw qr st so vm li mt mu vr sg hqr hqr0 hqr1 hst hso hso0 hso1 hvm hvm0 hli hli0
      hmt hmu hmu0 hmu1 hvr hvr0 hvr1 hsg hsg0
    have hq : V2.queryResolutionScore raw = JsNum.orD (some qr) 0 := by
      rw [V2.queryResolutionScore, hqr]
    have hqb : 0 ≤ V2.queryResolutionScore raw ∧ V2.queryResolutionScore raw ≤ 100 := by
      rw [hq]; simp only [JsNum.orD]
      split_ifs <;> refine ⟨?_, ?_⟩ <;> first | assumption | norm_num
    have hsv : V2.sdvScore raw = JsNum.orD (some vr) 0 := by rw [V2.sdvScore, hvr]
    have hsvb : 0 ≤ V2.sdvScore raw ∧ V2.sdvScore raw ≤ 100 := by
      rw [hsv]; simp only [JsNum.orD]
      split_ifs <;> refine ⟨?_, ?_⟩ <;> first | assumption | norm_num
    have hsae : ∃ v, V2.saeResolutionScore raw = some v ∧ 0 ≤ v ∧ v ≤ 100 := by
      rw [V2.saeResolutionScore, hst, hso]
      by_cases hts : (0 : ℚ) < st
      · have hne : st ≠ 0 := ne_of_gt hts
        obtain ⟨hb0, hb1⟩ := ratio_bounds hso0 hso1 hts
        obtain ⟨hc0, hc1⟩ := jsRound_unit hb0 hb1
        refine ⟨((jsRound ((st - so) / st * 100) : ℤ) : ℚ), ?_, by exact_mod_cast hc0,
          by exact_mod_cast hc1⟩
        simp [JsNum.gt, hts, JsNum.sub, JsNum.div, JsNum.mul, JsNum.round, hne]
      · refine ⟨100, ?_, by norm_num, by norm_num⟩
        simp [JsNum.gt, hts]
    have hvis : ∃ v, V2.visitScore raw = some v ∧ 0 ≤ v ∧ v ≤ 100 := by
      rw [V2.visitScore, hvm]
      obtain ⟨hb0, hb1⟩ := clamp_bounds (m := vm) (c := 10) hvm0 (by norm_num)
      exact ⟨_, by simp [JsNum.max', JsNum.min', JsNum.sub, JsNum.div], hb0, hb1⟩
    have hlab : ∃ v, V2.labScore raw = some v ∧ 0 ≤ v ∧ v ≤ 100 := by
      rw [V2.labScore, hli]
      obtain ⟨hb0, hb1⟩ := clamp_bounds (m := li) (c := 200) hli0 (by norm_num)
      exact ⟨_, by simp [JsNum.max', JsNum.min', JsNum.sub, JsNum.div], hb0, hb1⟩
    have hsig : ∃ v, V2.signatureScore raw = some v ∧ 0 ≤ v ∧ v ≤ 100 := by
      rw [V2.signatureScore, hsg]
      obtain ⟨hb0, hb1⟩ := clamp_bounds (m := sg) (c := 100) hsg0 (by norm_num)
      exact ⟨_, by simp [JsNum.max', JsNum.min', JsNum.sub, JsNum.div], hb0, hb1⟩
    have hcod : ∃ v, V2.codingScore raw = some v ∧ 0 ≤ v ∧ v ≤ 100 := by
      rw [V2.codingScore, hmt, hmu]
      by_cases hts : (0 : ℚ) < mt
      · have hne : mt ≠ 0 := ne_of_gt hts
        obtain ⟨hb0, hb1⟩ := ratio_bounds hmu0 hmu1 hts
        exact ⟨_, by simp [JsNum.gt, hts, JsNum.sub, JsNum.div, JsNum.mul, hne], hb0, hb1⟩
      · exact ⟨100, by simp [JsNum.gt, hts], by norm_num, by norm_num⟩
    obtain ⟨v1, he1, hb1⟩ := hsae
    obtain ⟨v3, he3, hb3⟩ := hvis
    obtain ⟨v4, he4, hb4⟩ := hlab
    obtain ⟨v5, he5, hb5⟩ := hcod
    obtain ⟨v7, he7, hb7⟩ := hsig
    refine ⟨jsRound (v1 * (30/100) + (V2.queryResolutionScore raw * (25/100) +
      (v3 * (10/100) + (v4 * (10/100) + (v5 * (10/100) +
      (V2.sdvScore raw * (10/100) + v7 * (5/100))))))), ?_, ?_⟩
    · rw [V2.dqi, he1, he3, he4, he5, he7]
      simp [JsNum.add, JsNum.mul, JsNum.round]
    · exact jsRound_unit (by nlinarith [hqb.1, hqb.2, hsvb.1, hsvb.2])
        (by nlinarith [hqb.1, hqb.2, hsvb.1, hsvb.2])
  · intro raw qr st so hqr hqr0 hqr1 hst hso hso0 hso1
    have hq : V1.queryResolutionScore raw = JsNum.orD (some qr) 0 / 100 := by
      rw [V1.queryResolutionScore, hqr]
    have hqb : 0 ≤ V1.queryResolutionScore raw ∧ V1.queryResolutionScore raw ≤ 1 := by
      rw [hq]; simp only [JsNum.orD]
      split_ifs <;> constructor <;> linarith
    have hsae : ∃ v, V1.saeResolutionScore raw = some v ∧ 0 ≤ v ∧ v ≤ 1 := by
      rw [V1.saeResolutionScore, hst, hso]
      by_cases hts : (0 : ℚ) < st
      · have hne : st ≠ 0 := ne_of_gt hts
        refine ⟨(st - so) / st, ?_, div_nonneg (by linarith) hts.le, ?_⟩
        · simp [JsNum.gt, hts, JsNum.sub, JsNum.div, hne]
        · rw [div_le_one hts]; linarith
      · refine ⟨1, ?_, by norm_num, by norm_num⟩
        simp [JsNum.gt, hts]
    obtain ⟨v, hev, hv0, hv1⟩ := hsae
    refine ⟨jsRound ((v * (30/100) + (V1.queryResolutionScore raw * (25/100) +
      (75/100) * (20/100) + (85/100) * (15/100) + (90/100) * (10/100))) * 100), ?_, ?_⟩
    · rw [V1.dqi, hev]
      simp [JsNum.add, JsNum.mul, JsNum.round]
    · exact jsRound_unit (by nlinarith [hqb.1, hqb.2]) (by nlinarith [hqb.1, hqb.2])

/-- C3 witness: the bounds applied to the concrete ten-site tree and to
the end-to-end snapshot. -/
theorem claim_C3_witness :
    RegionsCountersOk tenSiteRegions ∧
    (∀ e ∈ allSitesOf tenSiteRegions, 0 ≤ e.dqi ∧ e.dqi ≤ 100 ∧
      0 ≤ e.cleanPercent ∧ e.cleanPercent ≤ 100) ∧
    (∀ re ∈ transformRegionsData tenSiteRegions, ∀ ce ∈ re.countries,
      0 ≤ ce.dqi ∧ ce.dqi ≤ 100 ∧ 0 ≤ ce.cleanPercent ∧ ce.cleanPercent ≤ 100) ∧
    (∃ d, V2.dqi c1raw = some d ∧ 0 ≤ d ∧ d ≤ 100) ∧
    (∃ d, V1.dqi c1raw = some d ∧ 0 ≤ d ∧ d ≤ 100) := by
  have hOk : RegionsCountersOk tenSiteRegions := by
    intro r hr c hc
    fin_cases hr
    fin_cases hc <;>
      refine ⟨by norm_num [CountryCountersOk, JsNum.orD], ?_⟩ <;>
      intro s hs <;> fin_cases hs <;> norm_num [SiteCountersOk, JsNum.orD]
  refine ⟨hOk, claim_C3_amended.1 tenSiteRegions hOk,
    claim_C3_amended.2.1 tenSiteRegions hOk,
    claim_C3_amended.2.2.1 c1raw 80 500 0 0 0 0 0 0 0 rfl (by norm_num) (by norm_num)
      rfl rfl (by norm_num) (by norm_num) rfl (by norm_num) rfl (by norm_num)
      rfl rfl (by norm_num) (by norm_num) rfl (by norm_num) (by norm_num) rfl (by norm_num),
    claim_C3_amended.2.2.2 c1raw 80 500 0 rfl (by norm_num) (by norm_num)
      rfl rfl (by norm_num) (by norm_num)⟩

end NestDashboard
